import Mathlib

/-!
Verification of the TI DS250DFX10 retimer driver
(`drivers/phy/ti/phy-ti-ds250dfx10.c`).

Shallow embedding: the I2C/SMBus transport is modelled as an oracle
(`Transport`) answering, for each bus transaction index, a byte-read result
(`none` = bus failure, mapped to `-EIO` by the driver) or a write outcome.
Driver state threading is explicit: a `BusState` records the ordered trace of
attempted bus transactions (`bus`) and, as instrumentation, the ordered list of
masked-register-write requests the driver issues against its Register Access
Layer (`calls`).  Bytes are `Nat`s; `uint8_t` truncation at C call boundaries
is written as `% 256`, and the C expression `~mask` on a `uint8_t` as
`255 ^^^ mask`.
-/

/-- One bus-level transaction attempted on the I2C/SMBus control plane. -/
inductive BusEvent
  | read (address : Nat)
  | write (address value : Nat)
  deriving DecidableEq, Repr

/-- A masked register write request `(address, value, mask)` as issued against
the driver's Register Access Layer (`ds250dfx10_write_register`). -/
abbrev RegWrite := Nat × Nat × Nat

/-- Behaviour of the I2C bus: for the n-th transaction (0-based, counted over
the whole trace), the byte a read at a given address returns (`none` models a
negative `i2c_smbus_read_byte_data` result) and whether a write succeeds. -/
structure Transport where
  readv : Nat → Nat → Option Nat
  writeOk : Nat → Nat → Nat → Bool

/-- Observable driver state: bus-transaction trace plus the instrumentation
log of Register Access Layer write calls. -/
structure BusState where
  bus : List BusEvent
  calls : List RegWrite
  deriving DecidableEq, Repr

/-- Error codes the driver returns (`-EIO`, `-EINVAL`, `-EOPNOTSUPP`,
`-ENODEV`, `-ENOMEM`). -/
inductive DriverError
  | eio | einval | eopnotsupp | enodev | enomem
  deriving DecidableEq, Repr

/-- `i2c_smbus_read_byte_data`: one attempted bus read; the transport decides
the outcome from the transaction index and address. -/
def i2c_smbus_read_byte_data (t : Transport) (s : BusState) (address : Nat) :
    Option Nat × BusState :=
  (t.readv s.bus.length address,
   { s with bus := s.bus ++ [BusEvent.read address] })

/-- `i2c_smbus_write_byte_data`: one attempted bus write. -/
def i2c_smbus_write_byte_data (t : Transport) (s : BusState)
    (address value : Nat) : Bool × BusState :=
  (t.writeOk s.bus.length address value,
   { s with bus := s.bus ++ [BusEvent.write address value] })

/-- `ds250dfx10_read_register`: read a byte and mask it; a failed bus read
becomes `-EIO`. -/
def ds250dfx10_read_register (t : Transport) (s : BusState)
    (address mask : Nat) : Except DriverError Nat × BusState :=
  match i2c_smbus_read_byte_data t s address with
  | (none, s₁) => (.error .eio, s₁)
  | (some res, s₁) => (.ok (res &&& mask), s₁)

/-- `ds250dfx10_write_register`: masked write.  For a full mask the value is
written directly; otherwise the current register content is first read with
the complement mask (`~mask`, i.e. `255 ^^^ mask`) and combined as
`(value &&& mask) ||| preserved`; a failed preserving read aborts with `-EIO`
before any write.  Every invocation is logged in `calls`. -/
def ds250dfx10_write_register (t : Transport) (s : BusState)
    (address value mask : Nat) : Except DriverError Unit × BusState :=
  let s₀ : BusState := { s with calls := s.calls ++ [(address, value, mask)] }
  let step : Except DriverError Nat × BusState :=
    if mask ≠ 0xFF then
      match ds250dfx10_read_register t s₀ address (255 ^^^ mask) with
      | (.error e, s₁) => (.error e, s₁)
      | (.ok tmp, s₁) => (.ok ((value &&& mask) ||| tmp), s₁)
    else
      (.ok value, s₀)
  match step with
  | (.error e, s₁) => (.error e, s₁)
  | (.ok v, s₁) =>
    match i2c_smbus_write_byte_data t s₁ address v with
    | (false, s₂) => (.error .eio, s₂)
    | (true, s₂) => (.ok (), s₂)

/-- `true` iff an `Except` result is an error (models a nonzero C return
accumulated by `ret |= ...`). -/
def isErr : Except DriverError Unit → Bool
  | .error _ => true
  | .ok _ => false

/-- `ds250dfx10_config_10g`: the 13 masked register writes configuring one
channel for the 10.3125 Gbps rate, in source order.  The C function is `void`;
the returned `Bool` is its internal `ret` accumulator (`true` iff some step
failed), which in C only suppresses the final success log. -/
def ds250dfx10_config_10g (t : Transport) (s : BusState) (channel : Nat) :
    Bool × BusState :=
  let p₁ := ds250dfx10_write_register t s 0xFF 0x01 0x03
  let p₂ := ds250dfx10_write_register t p₁.2 0xFC ((1 <<< channel) % 256) 0xFF
  let p₃ := ds250dfx10_write_register t p₂.2 0x00 0x04 0x04
  let p₄ := ds250dfx10_write_register t p₃.2 0x0A 0x0C 0x0C
  let p₅ := ds250dfx10_write_register t p₄.2 0x2F 0x00 0xF0
  let p₆ := ds250dfx10_write_register t p₅.2 0x3D 0x80 0x80
  let p₇ := ds250dfx10_write_register t p₆.2 0x3D 0x00 0x40
  let p₈ := ds250dfx10_write_register t p₇.2 0x3D 0x0F 0x1F
  let p₉ := ds250dfx10_write_register t p₈.2 0x3E 0x40 0x40
  let p₁₀ := ds250dfx10_write_register t p₉.2 0x3E 0x04 0x0F
  let p₁₁ := ds250dfx10_write_register t p₁₀.2 0x3F 0x40 0x40
  let p₁₂ := ds250dfx10_write_register t p₁₁.2 0x3F 0x04 0x0F
  let p₁₃ := ds250dfx10_write_register t p₁₂.2 0x0A 0x00 0x0C
  (isErr p₁.1 || isErr p₂.1 || isErr p₃.1 || isErr p₄.1 || isErr p₅.1 ||
   isErr p₆.1 || isErr p₇.1 || isErr p₈.1 || isErr p₉.1 || isErr p₁₀.1 ||
   isErr p₁₁.1 || isErr p₁₂.1 || isErr p₁₃.1, p₁₃.2)

/-- `ds250dfx10_config_25g`: identical structure, selecting the
25.78125 Gbps rate code at register 0x2F. -/
def ds250dfx10_config_25g (t : Transport) (s : BusState) (channel : Nat) :
    Bool × BusState :=
  let p₁ := ds250dfx10_write_register t s 0xFF 0x01 0x03
  let p₂ := ds250dfx10_write_register t p₁.2 0xFC ((1 <<< channel) % 256) 0xFF
  let p₃ := ds250dfx10_write_register t p₂.2 0x00 0x04 0x04
  let p₄ := ds250dfx10_write_register t p₃.2 0x0A 0x0C 0x0C
  let p₅ := ds250dfx10_write_register t p₄.2 0x2F 0x50 0xF0
  let p₆ := ds250dfx10_write_register t p₅.2 0x3D 0x80 0x80
  let p₇ := ds250dfx10_write_register t p₆.2 0x3D 0x00 0x40
  let p₈ := ds250dfx10_write_register t p₇.2 0x3D 0x0F 0x1F
  let p₉ := ds250dfx10_write_register t p₈.2 0x3E 0x40 0x40
  let p₁₀ := ds250dfx10_write_register t p₉.2 0x3E 0x04 0x0F
  let p₁₁ := ds250dfx10_write_register t p₁₀.2 0x3F 0x40 0x40
  let p₁₂ := ds250dfx10_write_register t p₁₁.2 0x3F 0x04 0x0F
  let p₁₃ := ds250dfx10_write_register t p₁₂.2 0x0A 0x00 0x0C
  (isErr p₁.1 || isErr p₂.1 || isErr p₃.1 || isErr p₄.1 || isErr p₅.1 ||
   isErr p₆.1 || isErr p₇.1 || isErr p₈.1 || isErr p₉.1 || isErr p₁₀.1 ||
   isErr p₁₁.1 || isErr p₁₂.1 || isErr p₁₃.1, p₁₃.2)

/-- The masked-write sequence of `ds250dfx10_config_10g`, as data. -/
def ds250dfx10_10g_writes (channel : Nat) : List RegWrite :=
  [(0xFF, 0x01, 0x03), (0xFC, (1 <<< channel) % 256, 0xFF), (0x00, 0x04, 0x04),
   (0x0A, 0x0C, 0x0C), (0x2F, 0x00, 0xF0), (0x3D, 0x80, 0x80),
   (0x3D, 0x00, 0x40), (0x3D, 0x0F, 0x1F), (0x3E, 0x40, 0x40),
   (0x3E, 0x04, 0x0F), (0x3F, 0x40, 0x40), (0x3F, 0x04, 0x0F),
   (0x0A, 0x00, 0x0C)]

/-- The masked-write sequence of `ds250dfx10_config_25g`, as data. -/
def ds250dfx10_25g_writes (channel : Nat) : List RegWrite :=
  [(0xFF, 0x01, 0x03), (0xFC, (1 <<< channel) % 256, 0xFF), (0x00, 0x04, 0x04),
   (0x0A, 0x0C, 0x0C), (0x2F, 0x50, 0xF0), (0x3D, 0x80, 0x80),
   (0x3D, 0x00, 0x40), (0x3D, 0x0F, 0x1F), (0x3E, 0x40, 0x40),
   (0x3E, 0x04, 0x0F), (0x3F, 0x40, 0x40), (0x3F, 0x04, 0x0F),
   (0x0A, 0x00, 0x0C)]

/-- Every `ds250dfx10_write_register` call appends exactly its own request to
the Register Access Layer log, whatever the transport does. -/
theorem write_register_calls (t : Transport) (s : BusState)
    (address value mask : Nat) :
    (ds250dfx10_write_register t s address value mask).2.calls =
      s.calls ++ [(address, value, mask)] := by
  unfold ds250dfx10_write_register
  by_cases h : mask = 0xFF
  · simp [h, i2c_smbus_write_byte_data]
    cases t.writeOk s.bus.length address value <;> simp
  · simp only [h, ne_eq, not_false_eq_true, if_true, ite_not]
    simp [h, ds250dfx10_read_register, i2c_smbus_read_byte_data,
          i2c_smbus_write_byte_data]
    cases t.readv s.bus.length address with
    | none => simp
    | some b =>
      simp
      cases t.writeOk (s.bus.length + 1) address
          ((value &&& mask) ||| (b &&& (255 ^^^ mask))) <;> simp

/-- The 10G configuration call appends exactly `ds250dfx10_10g_writes channel`
to the Register Access Layer log, for every transport behaviour. -/
theorem config_10g_calls (t : Transport) (s : BusState) (channel : Nat) :
    (ds250dfx10_config_10g t s channel).2.calls =
      s.calls ++ ds250dfx10_10g_writes channel := by
  simp [ds250dfx10_config_10g, ds250dfx10_10g_writes, write_register_calls]

/-- The 25G configuration call appends exactly `ds250dfx10_25g_writes channel`
to the Register Access Layer log, for every transport behaviour. -/
theorem config_25g_calls (t : Transport) (s : BusState) (channel : Nat) :
    (ds250dfx10_config_25g t s channel).2.calls =
      s.calls ++ ds250dfx10_25g_writes channel := by
  simp [ds250dfx10_config_25g, ds250dfx10_25g_writes, write_register_calls]

/-- The kernel `enum phy_mode` (external interface; only `ethernet` is
accepted by this driver). -/
inductive phy_mode
  | invalid | usb_host | usb_device | usb_otg | ufs_hs_a | ufs_hs_b | pcie
  | ethernet | mipi_dphy | sata | lvds | dsi
  deriving DecidableEq, Repr

/-- The kernel `phy_interface_t` submodes relevant here (external interface;
the driver recognises `p10gbaser` and `p25gbaser`). -/
inductive phy_interface_mode
  | na | internal | sgmii | rgmii | usxgmii | p10gbaser | p25gbaser | xaui
  deriving DecidableEq, Repr

/-- `struct ds250dfx10_phy_priv`: per-lane private data (the `client` back
reference is the single modelled device, so only the channel index is kept). -/
structure ds250dfx10_phy_priv where
  channel : Nat
  deriving DecidableEq, Repr

/-- `ds250dfx10_phy_set_mode`: reject non-Ethernet modes and unknown submodes
with `-EOPNOTSUPP` (no bus traffic); otherwise run the matching configuration
sequence.  The C code discards the configuration functions' internal failure
accumulator (they are `void`), so it returns 0 afterwards unconditionally. -/
def ds250dfx10_phy_set_mode (t : Transport) (s : BusState)
    (priv : ds250dfx10_phy_priv) (mode : phy_mode)
    (submode : phy_interface_mode) : Except DriverError Unit × BusState :=
  if mode ≠ phy_mode.ethernet then
    (.error .eopnotsupp, s)
  else
    match submode with
    | .p10gbaser =>
      let r := ds250dfx10_config_10g t s priv.channel
      (.ok (), r.2)
    | .p25gbaser =>
      let r := ds250dfx10_config_25g t s priv.channel
      (.ok (), r.2)
    | _ => (.error .eopnotsupp, s)

/-- `struct ds250dfx10_priv`: the 8-slot lane array (`none` = NULL slot) and
whether the PHY provider got registered. -/
structure ds250dfx10_priv where
  phy : Nat → Option ds250dfx10_phy_priv
  provider : Bool

/-- `ds250dfx10_of_xlate`: resolve a lane handle from devicetree arguments;
wrong argument count, an index ≥ 8 or a NULL slot give `-ENODEV`. -/
def ds250dfx10_of_xlate (priv : ds250dfx10_priv) (args : List Nat) :
    Except DriverError ds250dfx10_phy_priv :=
  if args.length ≠ 1 then .error .enodev
  else
    let channel := args.headD 0
    if 8 ≤ channel then .error .enodev
    else
      match priv.phy channel with
      | none => .error .enodev
      | some p => .ok p

/-- The probe loop `for (i = 0; i < channels; i++)` creating one PHY object
per channel, filling slots 0, 1, …, channels-1 of the zero-initialised
array in order (`devm_phy_create`/`devm_kzalloc` are modelled as
succeeding). -/
def ds250dfx10_create_phys : Nat → (Nat → Option ds250dfx10_phy_priv) →
    (Nat → Option ds250dfx10_phy_priv)
  | 0, f => f
  | n + 1, f =>
    let g := ds250dfx10_create_phys n f
    fun j => if j = n then some ⟨n⟩ else g j

/-- `ds250dfx10_probe`: device setup.  Reads device id (0xF1), version (0xF0),
channel-config id (0xEF, low nibble), maps 0xC ↦ 8 channels and 0xE ↦ 4
channels (anything else is `-EINVAL`), reads the channel/share version byte
(0xF3), then creates the lanes and registers the provider.  Any failed
identification read aborts with the error before any lane exists; an error
return models the devm-managed teardown (no lanes, no provider survive). -/
def ds250dfx10_probe (t : Transport) (s : BusState) :
    Except DriverError ds250dfx10_priv × BusState :=
  match ds250dfx10_read_register t s 0xF1 0xFF with
  | (.error e, s₁) => (.error e, s₁)
  | (.ok _device_id, s₁) =>
  match ds250dfx10_read_register t s₁ 0xF0 0xFF with
  | (.error e, s₂) => (.error e, s₂)
  | (.ok _version, s₂) =>
  match ds250dfx10_read_register t s₂ 0xEF 0x0F with
  | (.error e, s₃) => (.error e, s₃)
  | (.ok chan_config_id, s₃) =>
  match (if chan_config_id = 0xC then some 8
         else if chan_config_id = 0xE then some 4 else none : Option Nat) with
  | none => (.error .einval, s₃)
  | some channels =>
  match ds250dfx10_read_register t s₃ 0xF3 0xFF with
  | (.error e, s₄) => (.error e, s₄)
  | (.ok _chan_version, s₄) =>
    (.ok { phy := ds250dfx10_create_phys channels (fun _ => none),
           provider := true }, s₄)

/-- Number of lanes created: populated slots of the 8-entry array. -/
def laneCount (priv : ds250dfx10_priv) : Nat :=
  (List.range 8).countP (fun i => (priv.phy i).isSome)

/-- Transport on which every read returns 0x00 and every write succeeds. -/
def transportAllOk : Transport :=
  { readv := fun _ _ => some 0, writeOk := fun _ _ _ => true }

/-- Transport on which reads succeed (0x00) but every write to address 0xFF
fails; all other writes succeed. -/
def transportPageWriteFails : Transport :=
  { readv := fun _ _ => some 0, writeOk := fun _ a _ => a != 0xFF }

/-- Transport on which every read fails. -/
def transportReadFails : Transport :=
  { readv := fun _ _ => none, writeOk := fun _ _ _ => true }

/-- Fresh device state: no transactions yet. -/
def emptyBus : BusState := { bus := [], calls := [] }

/-- C4: for a full mask, `write_masked` issues exactly one bus write carrying
the value and no preceding read; for any other (byte) mask it issues exactly
one preserving read followed by one write of
`(value &&& mask) ||| (readback &&& ~mask)`, provided the preserving read is
answered by the bus. -/
theorem c4_write_masked_transactions (t : Transport) (s : BusState)
    (address value mask : Nat) (_hv : value < 256) (hm : mask < 256) :
    (mask = 0xFF →
      (ds250dfx10_write_register t s address value mask).2.bus =
        s.bus ++ [BusEvent.write address value]) ∧
    (mask ≠ 0xFF → ∀ b, t.readv s.bus.length address = some b →
      (ds250dfx10_write_register t s address value mask).2.bus =
        s.bus ++ [BusEvent.read address,
          BusEvent.write address ((value &&& mask) ||| (b &&& (255 ^^^ mask)))]) := by
  constructor
  · intro h
    subst h
    unfold ds250dfx10_write_register
    simp [i2c_smbus_write_byte_data]
    cases t.writeOk s.bus.length address value <;> simp
  · intro h b hb
    unfold ds250dfx10_write_register
    simp only [h, ne_eq, not_false_eq_true, if_true, ite_not]
    simp [h, ds250dfx10_read_register, i2c_smbus_read_byte_data, hb,
          i2c_smbus_write_byte_data]
    cases t.writeOk (s.bus.length + 1) address
        ((value &&& mask) ||| (b &&& (255 ^^^ mask))) <;> simp

/-- C4 witness: instantiated at address 0x2F, value 0x50, mask 0xF0 (and at
mask 0xFF) on the all-zero transport starting from a fresh device. -/
theorem c4_write_masked_transactions_witness :
    (ds250dfx10_write_register transportAllOk emptyBus 0x2F 0x50 0xF0).2.bus =
      [BusEvent.read 0x2F,
       BusEvent.write 0x2F ((0x50 &&& 0xF0) ||| (0 &&& (255 ^^^ 0xF0)))] ∧
    (ds250dfx10_write_register transportAllOk emptyBus 0xFC 0x04 0xFF).2.bus =
      [BusEvent.write 0xFC 0x04] := by
  constructor
  · exact (c4_write_masked_transactions transportAllOk emptyBus 0x2F 0x50 0xF0
      (by decide) (by decide)).2 (by decide) 0 rfl
  · exact (c4_write_masked_transactions transportAllOk emptyBus 0xFC 0x04 0xFF
      (by decide) (by decide)).1 rfl

/-- C9: when the preserving read inside a partial-mask `write_masked` fails,
the call returns `-EIO` immediately and no bus write is issued: the only
transaction attempted is the failed read, so the target register is left
untouched. -/
theorem c9_read_failure_atomic (t : Transport) (s : BusState)
    (address value mask : Nat) (hm : mask ≠ 0xFF)
    (hr : t.readv s.bus.length address = none) :
    (ds250dfx10_write_register t s address value mask).1 =
      .error DriverError.eio ∧
    (ds250dfx10_write_register t s address value mask).2.bus =
      s.bus ++ [BusEvent.read address] := by
  unfold ds250dfx10_write_register
  simp only [hm, ne_eq, not_false_eq_true, if_true, ite_not]
  simp [hm, ds250dfx10_read_register, i2c_smbus_read_byte_data, hr]

/-- C9 witness: instantiated at address 0x0A, value 0x0C, mask 0x0C on the
read-failing transport. -/
theorem c9_read_failure_atomic_witness :
    (ds250dfx10_write_register transportReadFails emptyBus 0x0A 0x0C 0x0C).1 =
      .error DriverError.eio ∧
    (ds250dfx10_write_register transportReadFails emptyBus 0x0A 0x0C 0x0C).2.bus =
      [BusEvent.read 0x0A] := by
  have h := c9_read_failure_atomic transportReadFails emptyBus 0x0A 0x0C 0x0C
    (by decide) rfl
  exact ⟨h.1, h.2⟩

/-- C1: for every channel below 8 and both rates, `configure` issues exactly
the thirteen masked register writes of the specification against the Register
Access Layer, in order — paging 0xFF←0x01/0x03, one-hot channel select at
0xFC, channel reset bit 0x04 at 0x00, CDR hold bits 0x0C at 0x0A, line rate
high nibble at 0x2F (0x0 for 10G, 0x5 for 25G), tap enable bit 0x80 at 0x3D,
main-cursor sign/magnitude at 0x3D, pre-cursor sign/magnitude at 0x3E,
post-cursor sign/magnitude at 0x3F, and finally CDR release clearing 0x0C at
0x0A — with the CDR hold (index 3) strictly preceding the line-rate write
(index 4). -/
theorem c1_configure_issues_exact_sequence (t : Transport) (s : BusState)
    (channel : Nat) (h : channel < 8) :
    ((ds250dfx10_config_10g t s channel).2.calls =
      s.calls ++
        [(0xFF, 0x01, 0x03), (0xFC, 1 <<< channel, 0xFF), (0x00, 0x04, 0x04),
         (0x0A, 0x0C, 0x0C), (0x2F, 0x00, 0xF0), (0x3D, 0x80, 0x80),
         (0x3D, 0x00, 0x40), (0x3D, 0x0F, 0x1F), (0x3E, 0x40, 0x40),
         (0x3E, 0x04, 0x0F), (0x3F, 0x40, 0x40), (0x3F, 0x04, 0x0F),
         (0x0A, 0x00, 0x0C)] ∧
     (ds250dfx10_config_25g t s channel).2.calls =
      s.calls ++
        [(0xFF, 0x01, 0x03), (0xFC, 1 <<< channel, 0xFF), (0x00, 0x04, 0x04),
         (0x0A, 0x0C, 0x0C), (0x2F, 0x50, 0xF0), (0x3D, 0x80, 0x80),
         (0x3D, 0x00, 0x40), (0x3D, 0x0F, 0x1F), (0x3E, 0x40, 0x40),
         (0x3E, 0x04, 0x0F), (0x3F, 0x40, 0x40), (0x3F, 0x04, 0x0F),
         (0x0A, 0x00, 0x0C)]) ∧
    ((ds250dfx10_10g_writes channel).get? 3 = some (0x0A, 0x0C, 0x0C) ∧
     (ds250dfx10_10g_writes channel).get? 4 = some (0x2F, 0x00, 0xF0) ∧
     (ds250dfx10_25g_writes channel).get? 3 = some (0x0A, 0x0C, 0x0C) ∧
     (ds250dfx10_25g_writes channel).get? 4 = some (0x2F, 0x50, 0xF0)) := by
  have hm : (1 <<< channel) % 256 = 1 <<< channel := by
    interval_cases channel <;> decide
  refine ⟨⟨?_, ?_⟩, rfl, rfl, rfl, rfl⟩
  · rw [config_10g_calls]
    simp [ds250dfx10_10g_writes, hm]
  · rw [config_25g_calls]
    simp [ds250dfx10_25g_writes, hm]

/-- C1 witness: channel 3 on the all-zero transport from a fresh device. -/
theorem c1_configure_issues_exact_sequence_witness :
    (ds250dfx10_config_10g transportAllOk emptyBus 3).2.calls =
      [(0xFF, 0x01, 0x03), (0xFC, 1 <<< 3, 0xFF), (0x00, 0x04, 0x04),
       (0x0A, 0x0C, 0x0C), (0x2F, 0x00, 0xF0), (0x3D, 0x80, 0x80),
       (0x3D, 0x00, 0x40), (0x3D, 0x0F, 0x1F), (0x3E, 0x40, 0x40),
       (0x3E, 0x04, 0x0F), (0x3F, 0x40, 0x40), (0x3F, 0x04, 0x0F),
       (0x0A, 0x00, 0x0C)] := by
  exact ((c1_configure_issues_exact_sequence transportAllOk emptyBus 3
    (by decide)).1).1

/-- C3: for every channel and every transport behaviour, the two rate
sequences agree step for step — the 25G write list is the 10G write list with
only index 4 (the line-rate register 0x2F, high-nibble mask 0xF0) replaced:
0x00 (nibble 0x0) for 10G against 0x50 (nibble 0x5) for 25G. -/
theorem c3_sequences_differ_only_in_rate (t : Transport) (s : BusState)
    (channel : Nat) :
    (ds250dfx10_config_10g t s channel).2.calls =
      s.calls ++ ds250dfx10_10g_writes channel ∧
    (ds250dfx10_config_25g t s channel).2.calls =
      s.calls ++ ds250dfx10_25g_writes channel ∧
    ds250dfx10_25g_writes channel =
      (ds250dfx10_10g_writes channel).set 4 (0x2F, 0x50, 0xF0) ∧
    ds250dfx10_10g_writes channel =
      (ds250dfx10_25g_writes channel).set 4 (0x2F, 0x00, 0xF0) ∧
    (ds250dfx10_10g_writes channel).get? 4 = some (0x2F, 0x00, 0xF0) ∧
    (ds250dfx10_25g_writes channel).get? 4 = some (0x2F, 0x50, 0xF0) := by
  exact ⟨config_10g_calls t s channel, config_25g_calls t s channel,
         rfl, rfl, rfl, rfl⟩

/-- C2 counterexample: on a transport where the very first masked write (the
paging write to 0xFF) fails and everything else succeeds, the 10G sequence is
internally marked failed (`ret ≠ 0`), all thirteen steps are still issued,
yet `set_mode` returns success (`0`) to its caller — the failure is never
reported upward, contradicting the claim. -/
theorem c2_failure_not_reported_counterexample :
    (ds250dfx10_config_10g transportPageWriteFails emptyBus 0).1 = true ∧
    (ds250dfx10_config_10g transportPageWriteFails emptyBus 0).2.calls =
      ds250dfx10_10g_writes 0 ∧
    (ds250dfx10_phy_set_mode transportPageWriteFails emptyBus ⟨0⟩
        phy_mode.ethernet phy_interface_mode.p10gbaser).1 = .ok () := by
  refine ⟨?_, ?_, ?_⟩ <;> rfl

/-- C2 amended: if any single register write within a configure sequence
fails, all remaining steps are still attempted — the Register Access Layer
receives the full thirteen-step sequence for every transport behaviour — and
the aggregate failure only suppresses the internal success log: the configure
routines return no status (`void`), and `set_mode` reports success to its
caller regardless. -/
theorem c2_continue_on_error_no_caller_report (t : Transport) (s : BusState)
    (priv : ds250dfx10_phy_priv) :
    (ds250dfx10_config_10g t s priv.channel).2.calls =
      s.calls ++ ds250dfx10_10g_writes priv.channel ∧
    (ds250dfx10_config_25g t s priv.channel).2.calls =
      s.calls ++ ds250dfx10_25g_writes priv.channel ∧
    (ds250dfx10_phy_set_mode t s priv phy_mode.ethernet
        phy_interface_mode.p10gbaser).1 = .ok () ∧
    (ds250dfx10_phy_set_mode t s priv phy_mode.ethernet
        phy_interface_mode.p25gbaser).1 = .ok () := by
  refine ⟨config_10g_calls t s priv.channel, config_25g_calls t s priv.channel,
         ?_, ?_⟩ <;> simp [ds250dfx10_phy_set_mode]

/-- C6: any `set_mode` request with a non-Ethernet mode or an unsupported
submode returns `-EOPNOTSUPP` and leaves the device state untouched: zero bus
transactions, zero register-layer calls. -/
theorem c6_unsupported_mode_no_side_effects (t : Transport) (s : BusState)
    (priv : ds250dfx10_phy_priv) (mode : phy_mode)
    (submode : phy_interface_mode)
    (h : mode ≠ phy_mode.ethernet ∨
         (submode ≠ phy_interface_mode.p10gbaser ∧
          submode ≠ phy_interface_mode.p25gbaser)) :
    (ds250dfx10_phy_set_mode t s priv mode submode).1 =
      .error DriverError.eopnotsupp ∧
    (ds250dfx10_phy_set_mode t s priv mode submode).2 = s := by
  rcases h with h | ⟨h1, h2⟩
  · simp [ds250dfx10_phy_set_mode, h]
  · by_cases hm : mode = phy_mode.ethernet
    · subst hm
      cases submode <;> simp_all [ds250dfx10_phy_set_mode]
    · simp [ds250dfx10_phy_set_mode, hm]

/-- C6 witness: a SATA-mode request and an Ethernet request with SGMII
submode, on the all-zero transport from a fresh device. -/
theorem c6_unsupported_mode_no_side_effects_witness :
    ((ds250dfx10_phy_set_mode transportAllOk emptyBus ⟨0⟩ phy_mode.sata
        phy_interface_mode.p10gbaser).1 = .error DriverError.eopnotsupp ∧
     (ds250dfx10_phy_set_mode transportAllOk emptyBus ⟨0⟩ phy_mode.sata
        phy_interface_mode.p10gbaser).2 = emptyBus) ∧
    ((ds250dfx10_phy_set_mode transportAllOk emptyBus ⟨0⟩ phy_mode.ethernet
        phy_interface_mode.sgmii).1 = .error DriverError.eopnotsupp ∧
     (ds250dfx10_phy_set_mode transportAllOk emptyBus ⟨0⟩ phy_mode.ethernet
        phy_interface_mode.sgmii).2 = emptyBus) := by
  constructor
  · exact c6_unsupported_mode_no_side_effects transportAllOk emptyBus ⟨0⟩
      phy_mode.sata phy_interface_mode.p10gbaser (Or.inl (by decide))
  · exact c6_unsupported_mode_no_side_effects transportAllOk emptyBus ⟨0⟩
      phy_mode.ethernet phy_interface_mode.sgmii
      (Or.inr ⟨by decide, by decide⟩)

/-- The probe loop fills exactly the slots 0, …, n-1 with lane handles
carrying their own index, leaving the rest of the array as it was. -/
theorem ds250dfx10_create_phys_eq (n : Nat)
    (f : Nat → Option ds250dfx10_phy_priv) (j : Nat) :
    ds250dfx10_create_phys n f j = if j < n then some ⟨j⟩ else f j := by
  induction n with
  | zero => simp [ds250dfx10_create_phys]
  | succ m ih =>
    simp only [ds250dfx10_create_phys]
    by_cases hj : j = m
    · subst hj; simp
    · simp only [hj, if_false, ih]
      by_cases h2 : j < m
      · simp [h2, Nat.lt_succ_of_lt h2]
      · have h3 : ¬ j < m + 1 := by omega
        simp [h2, h3]

/-- A successful probe produced either 4 or 8 lanes, the lane array holding
`some ⟨j⟩` exactly below the channel count and `none` above it, with the
provider registered. -/
theorem ds250dfx10_probe_ok_phy (t : Transport) (s : BusState)
    (priv : ds250dfx10_priv) (h : (ds250dfx10_probe t s).1 = .ok priv) :
    ∃ c, (c = 4 ∨ c = 8) ∧
      (∀ j, priv.phy j = if j < c then some ⟨j⟩ else none) ∧
      priv.provider = true := by
  unfold ds250dfx10_probe at h
  split at h
  · simp at h
  · split at h
    · simp at h
    · split at h
      · simp at h
      · split at h
        · simp at h
        · split at h
          · simp at h
          · rename_i nch hif _ _ _ _
            simp only [Except.ok.injEq] at h
            refine ⟨nch, ?_, ?_, ?_⟩
            · split at hif
              · simp at hif; omega
              · split at hif
                · simp at hif; omega
                · simp at hif
            · intro j
              rw [← h]
              simp [ds250dfx10_create_phys_eq]
            · rw [← h]

/-- Transport whose reads answer `cfg` at the channel-config register 0xEF
and 0x10 everywhere else, with all writes succeeding. -/
def transportTopology (cfg : Nat) : Transport :=
  { readv := fun _ a => some (if a = 0xEF then cfg else 0x10),
    writeOk := fun _ _ _ => true }

/-- C5: with the identification reads answered, a channel-config low nibble
of 0xC makes the probe succeed with 8 lanes, 0xE with 4 lanes, and any other
nibble makes it fail with `-EINVAL` (so no lane is created and no provider
registered, the error return modelling the devm teardown). -/
theorem c5_channel_config_mapping (t : Transport) (s : BusState) (d v c w : Nat)
    (h1 : t.readv s.bus.length 0xF1 = some d)
    (h2 : t.readv (s.bus.length + 1) 0xF0 = some v)
    (h3 : t.readv (s.bus.length + 2) 0xEF = some c) :
    (c &&& 0x0F = 0xC → t.readv (s.bus.length + 3) 0xF3 = some w →
      ((ds250dfx10_probe t s).1).map laneCount = .ok 8) ∧
    (c &&& 0x0F = 0xE → t.readv (s.bus.length + 3) 0xF3 = some w →
      ((ds250dfx10_probe t s).1).map laneCount = .ok 4) ∧
    (c &&& 0x0F ≠ 0xC → c &&& 0x0F ≠ 0xE →
      (ds250dfx10_probe t s).1 = .error DriverError.einval) := by
  refine ⟨?_, ?_, ?_⟩
  · intro hc h4
    simp [ds250dfx10_probe, ds250dfx10_read_register,
          i2c_smbus_read_byte_data, h1, h2, h3, h4, hc]
    rfl
  · intro hc h4
    simp [ds250dfx10_probe, ds250dfx10_read_register,
          i2c_smbus_read_byte_data, h1, h2, h3, h4, hc]
    rfl
  · intro hc he
    simp [ds250dfx10_probe, ds250dfx10_read_register,
          i2c_smbus_read_byte_data, h1, h2, h3, hc, he]

/-- C5 witness: devices reporting channel-config nibbles 0xC, 0xE and 0x7. -/
theorem c5_channel_config_mapping_witness :
    ((ds250dfx10_probe (transportTopology 0xC) emptyBus).1).map laneCount =
      .ok 8 ∧
    ((ds250dfx10_probe (transportTopology 0xE) emptyBus).1).map laneCount =
      .ok 4 ∧
    (ds250dfx10_probe (transportTopology 0x7) emptyBus).1 =
      .error DriverError.einval := by
  refine ⟨?_, ?_, ?_⟩
  · exact (c5_channel_config_mapping (transportTopology 0xC) emptyBus
      0x10 0x10 0xC 0x10 rfl rfl rfl).1 (by decide) rfl
  · exact (c5_channel_config_mapping (transportTopology 0xE) emptyBus
      0x10 0x10 0xE 0x10 rfl rfl rfl).2.1 (by decide) rfl
  · exact (c5_channel_config_mapping (transportTopology 0x7) emptyBus
      0x10 0x10 0x7 0x10 rfl rfl rfl).2.2 (by decide) (by decide)

/-- C7: device setup is atomic in its identification phase: a transport
failure on any of the four identification reads (device id 0xF1, version
0xF0, channel-config 0xEF, channel version 0xF3), or an unrecognised
channel-config nibble, makes the probe return an error — the error return
carries no lane array and no provider (devm teardown), so no lane is created
and no provider is registered. -/
theorem c7_probe_identification_atomic (t : Transport) (s : BusState) :
    (t.readv s.bus.length 0xF1 = none →
      (ds250dfx10_probe t s).1 = .error DriverError.eio) ∧
    (∀ d, t.readv s.bus.length 0xF1 = some d →
      t.readv (s.bus.length + 1) 0xF0 = none →
      (ds250dfx10_probe t s).1 = .error DriverError.eio) ∧
    (∀ d v, t.readv s.bus.length 0xF1 = some d →
      t.readv (s.bus.length + 1) 0xF0 = some v →
      t.readv (s.bus.length + 2) 0xEF = none →
      (ds250dfx10_probe t s).1 = .error DriverError.eio) ∧
    (∀ d v c, t.readv s.bus.length 0xF1 = some d →
      t.readv (s.bus.length + 1) 0xF0 = some v →
      t.readv (s.bus.length + 2) 0xEF = some c →
      (c &&& 0x0F = 0xC ∨ c &&& 0x0F = 0xE) →
      t.readv (s.bus.length + 3) 0xF3 = none →
      (ds250dfx10_probe t s).1 = .error DriverError.eio) ∧
    (∀ d v c, t.readv s.bus.length 0xF1 = some d →
      t.readv (s.bus.length + 1) 0xF0 = some v →
      t.readv (s.bus.length + 2) 0xEF = some c →
      c &&& 0x0F ≠ 0xC → c &&& 0x0F ≠ 0xE →
      (ds250dfx10_probe t s).1 = .error DriverError.einval) := by
  refine ⟨?_, ?_, ?_, ?_, ?_⟩
  · intro h1
    simp [ds250dfx10_probe, ds250dfx10_read_register,
          i2c_smbus_read_byte_data, h1]
  · intro d h1 h2
    simp [ds250dfx10_probe, ds250dfx10_read_register,
          i2c_smbus_read_byte_data, h1, h2]
  · intro d v h1 h2 h3
    simp [ds250dfx10_probe, ds250dfx10_read_register,
          i2c_smbus_read_byte_data, h1, h2, h3]
  · intro d v c h1 h2 h3 hc h4
    rcases hc with hc | hc <;>
      simp [ds250dfx10_probe, ds250dfx10_read_register,
            i2c_smbus_read_byte_data, h1, h2, h3, h4, hc]
  · intro d v c h1 h2 h3 hc he
    simp [ds250dfx10_probe, ds250dfx10_read_register,
          i2c_smbus_read_byte_data, h1, h2, h3, hc, he]

/-- Transport whose first `n` transactions succeed (reads answering 0x0C at
0xEF, 0x10 elsewhere) and whose later reads fail. -/
def transportFailsFrom (n : Nat) : Transport :=
  { readv := fun i a =>
      if i < n then some (if a = 0xEF then 0x0C else 0x10) else none,
    writeOk := fun _ _ _ => true }

/-- C7 witness: transports failing the first, second, third and fourth
identification read, and a device reporting the unknown nibble 0x7. -/
theorem c7_probe_identification_atomic_witness :
    (ds250dfx10_probe (transportFailsFrom 0) emptyBus).1 =
      .error DriverError.eio ∧
    (ds250dfx10_probe (transportFailsFrom 1) emptyBus).1 =
      .error DriverError.eio ∧
    (ds250dfx10_probe (transportFailsFrom 2) emptyBus).1 =
      .error DriverError.eio ∧
    (ds250dfx10_probe (transportFailsFrom 3) emptyBus).1 =
      .error DriverError.eio ∧
    (ds250dfx10_probe (transportTopology 0x7) emptyBus).1 =
      .error DriverError.einval := by
  refine ⟨?_, ?_, ?_, ?_, ?_⟩
  · exact (c7_probe_identification_atomic (transportFailsFrom 0) emptyBus).1
      rfl
  · exact (c7_probe_identification_atomic (transportFailsFrom 1) emptyBus).2.1
      0x10 rfl rfl
  · exact (c7_probe_identification_atomic
      (transportFailsFrom 2) emptyBus).2.2.1 0x10 0x10 rfl rfl rfl
  · exact (c7_probe_identification_atomic
      (transportFailsFrom 3) emptyBus).2.2.2.1 0x10 0x10 0x0C rfl rfl rfl
      (Or.inl (by decide)) rfl
  · exact (c7_probe_identification_atomic
      (transportTopology 0x7) emptyBus).2.2.2.2 0x10 0x10 0x7 rfl rfl rfl
      (by decide) (by decide)

/-- C8: after a successful probe, resolving a lane by channel index gives
`-ENODEV` for an out-of-range index (≥ 8) or an undiscovered (NULL) slot, and
the lane handle created for that index otherwise. -/
theorem c8_lane_lookup (t : Transport) (s : BusState)
    (priv : ds250dfx10_priv) (h : (ds250dfx10_probe t s).1 = .ok priv)
    (channel : Nat) :
    (8 ≤ channel →
      ds250dfx10_of_xlate priv [channel] = .error DriverError.enodev) ∧
    (priv.phy channel = none →
      ds250dfx10_of_xlate priv [channel] = .error DriverError.enodev) ∧
    (∀ p, priv.phy channel = some p →
      ds250dfx10_of_xlate priv [channel] = .ok p) := by
  obtain ⟨c, hc, hphy, -⟩ := ds250dfx10_probe_ok_phy t s priv h
  refine ⟨?_, ?_, ?_⟩
  · intro hch
    simp [ds250dfx10_of_xlate, hch]
  · intro hnone
    by_cases hch : 8 ≤ channel
    · simp [ds250dfx10_of_xlate, hch]
    · simp [ds250dfx10_of_xlate, hch, hnone]
  · intro p hp
    have hch : channel < 8 := by
      by_contra hge
      rw [hphy channel] at hp
      have : ¬ channel < c := by omega
      simp [this] at hp
    simp [ds250dfx10_of_xlate, Nat.not_le.mpr hch, hp]

/-- C8 witness: a 4-channel device (config nibble 0xE): channel 2 resolves to
its handle, channel 5 (undiscovered) and channel 9 (out of range) give
`-ENODEV`. -/
theorem c8_lane_lookup_witness :
    ∃ priv, (ds250dfx10_probe (transportTopology 0xE) emptyBus).1 = .ok priv ∧
      ds250dfx10_of_xlate priv [9] = .error DriverError.enodev ∧
      ds250dfx10_of_xlate priv [5] = .error DriverError.enodev ∧
      ds250dfx10_of_xlate priv [2] = .ok ⟨2⟩ := by
  refine ⟨{ phy := ds250dfx10_create_phys 4 (fun _ => none),
            provider := true }, rfl, ?_, ?_, ?_⟩
  · exact (c8_lane_lookup (transportTopology 0xE) emptyBus _ rfl 9).1
      (by decide)
  · exact (c8_lane_lookup (transportTopology 0xE) emptyBus _ rfl 5).2.1 rfl
  · exact (c8_lane_lookup (transportTopology 0xE) emptyBus _ rfl 2).2.2 ⟨2⟩ rfl

/-- C10: every lane handle a successful probe created carries the channel
index of its slot, strictly below the discovered channel count (4 or 8) — in
this functional model a handle is an immutable value, so the index never
changes — and consequently the channel-select byte `1 << index` that both
configure sequences write at 0xFC is exactly `2 ^ index` with `index < 8`:
a one-hot byte whose single set bit sits below position 8, untouched by the
`uint8_t` truncation. -/
theorem c10_lane_index_invariant (t : Transport) (s : BusState)
    (priv : ds250dfx10_priv) (h : (ds250dfx10_probe t s).1 = .ok priv) :
    ∃ c, (c = 4 ∨ c = 8) ∧
      ∀ i p, priv.phy i = some p →
        p.channel = i ∧ p.channel < c ∧ p.channel < 8 ∧
        1 <<< p.channel = 2 ^ p.channel ∧
        (1 <<< p.channel) % 256 = 1 <<< p.channel ∧
        (ds250dfx10_10g_writes p.channel).get? 1 =
          some (0xFC, 2 ^ p.channel, 0xFF) ∧
        (ds250dfx10_25g_writes p.channel).get? 1 =
          some (0xFC, 2 ^ p.channel, 0xFF) := by
  obtain ⟨c, hc, hphy, -⟩ := ds250dfx10_probe_ok_phy t s priv h
  refine ⟨c, hc, ?_⟩
  intro i p hp
  rw [hphy i] at hp
  by_cases hi : i < c
  · simp only [hi, if_true, Option.some.injEq] at hp
    have hch : p.channel = i := by rw [← hp]
    have hlt8 : p.channel < 8 := by omega
    have hpow : 1 <<< p.channel = 2 ^ p.channel := by
      rw [Nat.shiftLeft_eq, one_mul]
    have hsmall : 2 ^ p.channel < 256 := by
      calc 2 ^ p.channel < 2 ^ 8 :=
        Nat.pow_lt_pow_right (by norm_num) hlt8
      _ = 256 := by norm_num
    have hmod : (1 <<< p.channel) % 256 = 1 <<< p.channel := by
      rw [hpow]
      exact Nat.mod_eq_of_lt hsmall
    refine ⟨hch, by omega, hlt8, hpow, hmod, ?_, ?_⟩
    · simp [ds250dfx10_10g_writes, hmod, hpow, hsmall]
    · simp [ds250dfx10_25g_writes, hmod, hpow, hsmall]
  · simp [hi] at hp

/-- C10 witness: the 8-channel device (config nibble 0xC) has a lane at
slot 6 whose select byte is the one-hot `0x40 = 2 ^ 6`. -/
theorem c10_lane_index_invariant_witness :
    ∃ priv, (ds250dfx10_probe (transportTopology 0xC) emptyBus).1 = .ok priv ∧
      priv.phy 6 = some ⟨6⟩ ∧
      (ds250dfx10_10g_writes 6).get? 1 = some (0xFC, 2 ^ 6, 0xFF) := by
  refine ⟨{ phy := ds250dfx10_create_phys 8 (fun _ => none),
            provider := true }, rfl, by decide, ?_⟩
  obtain ⟨c, hc, hall⟩ := c10_lane_index_invariant (transportTopology 0xC)
    emptyBus _ rfl
  exact (hall 6 ⟨6⟩ (by decide)).2.2.2.2.2.1
